import Mathlib

/-!
Shallow embedding of the context-management core of the
`langgraph-audio-agents` repository, together with proofs of the
frozen claims about it.

The embedding follows the Python source files
`utils/checkpoint_utils.py`, `utils/conversation_manager.py`,
`utils/context_manager.py`,
`application/services/conversation_summarizer.py` and
`graph/nodes.py`.  External collaborators (the tiktoken tokenizer and
the LLM client) are passed in as opaque function parameters; everything
else is translated statement by statement from the source.
-/

namespace LGAA

/-- `Message` value object (`domain/value_objects/message.py`):
a role string and a content string. -/
structure Message where
  role : String
  content : String
deriving DecidableEq, Repr

/-! ### checkpoint_utils.py -/

/-- Python `str.strip()` whitespace set (ASCII part). -/
def pyIsSpace (c : Char) : Bool :=
  c == ' ' || c == '\t' || c == '\n' || c == '\r' || c == '\x0b' || c == '\x0c'

/-- ASCII lowercasing of one character, as Python `str.lower()` acts on ASCII. -/
def lowerChar (c : Char) : Char :=
  if 65 ≤ c.toNat && c.toNat ≤ 90 then Char.ofNat (c.toNat + 32) else c

/-- `str.lower()` over a character list. -/
def pyLower (cs : List Char) : List Char := cs.map lowerChar

/-- `str.strip()`: drop leading and trailing whitespace. -/
def pyStrip (cs : List Char) : List Char :=
  ((cs.dropWhile pyIsSpace).reverse.dropWhile pyIsSpace).reverse

/-- `.replace(" ", "-")` for a single-character pattern acts characterwise. -/
def replaceSpaceDash (cs : List Char) : List Char :=
  cs.map fun c => if c == ' ' then '-' else c

/-- The character class kept by `re.sub(r"[^a-z0-9_-]", "", ...)`. -/
def allowedChar (c : Char) : Bool :=
  (decide (97 ≤ c.toNat) && decide (c.toNat ≤ 122)) ||
  (decide (48 ≤ c.toNat) && decide (c.toNat ≤ 57)) ||
  c == '_' || c == '-'

/-- `user.lower().strip()` — the first two steps of component normalization. -/
def stripLower (s : String) : List Char := pyStrip (pyLower s.data)

/-- `re.sub(r"[^a-z0-9_-]", "", x.lower().strip().replace(" ", "-"))`:
the shared normalization applied to each component of a thread id. -/
def normComponentChars (s : String) : List Char :=
  (replaceSpaceDash (stripLower s)).filter allowedChar

/-- Normalized user component, with the `"default-user"` fallback
(`normalize_thread_id`, user branch). -/
def normUserChars (user : String) : List Char :=
  let n := normComponentChars user
  if n = [] then "default-user".data else n

/-- Normalized topic component: length-capped to 50 by `[:50]`, with the
`"general"` fallback (`normalize_thread_id`, topic branch). -/
def normTopicChars (topic : String) : List Char :=
  let n := (normComponentChars topic).take 50
  if n = [] then "general".data else n

/-- `normalize_thread_id(user, topic)`: `f"{normalized_user}:{normalized_topic}"`. -/
def normalize_thread_id (user topic : String) : String :=
  String.mk (normUserChars user ++ ':' :: normTopicChars topic)

/-- The user component of the result, as a string. -/
def normalized_user (user : String) : String := String.mk (normUserChars user)

/-- The topic component of the result, as a string. -/
def normalized_topic (topic : String) : String := String.mk (normTopicChars topic)

/-- Split a character list at the first `':'`, `none` if there is none
(the semantics of `":" in s` followed by `s.split(":", 1)`). -/
def splitFirstColon : List Char → Option (List Char × List Char)
  | [] => none
  | c :: cs =>
      if c = ':' then some ([], cs)
      else (splitFirstColon cs).map fun p => (c :: p.1, p.2)

/-- `parse_thread_id(thread_id)`: `None` when no colon is present, else the
pair of the part before the first colon and the part after it. -/
def parse_thread_id (s : String) : Option (String × String) :=
  (splitFirstColon s.data).map fun p => (String.mk p.1, String.mk p.2)

/-! ### conversation_manager.py

`count_tokens` wraps the external tiktoken tokenizer; it is passed in as
an opaque parameter `ct : String → Nat` wherever the source calls it. -/

/-- `estimate_message_tokens(messages)`: sum of `count_tokens(f"{role}: {content}")`
over the messages, with `ct` standing for `count_tokens`. -/
def estimate_message_tokens (ct : String → Nat) (messages : List Message) : Nat :=
  messages.foldl (fun total msg => total + ct (msg.role ++ ": " ++ msg.content)) 0

/-- `count_exchanges(messages)`: the number of user-role messages. -/
def count_exchanges (messages : List Message) : Nat :=
  (messages.filter fun msg => msg.role == "user").length

/-- `should_summarize(messages, max_exchanges, max_tokens)`: true when the
exchange count strictly exceeds `max_exchanges`, else when the estimated
token count strictly exceeds `max_tokens`. -/
def should_summarize (ct : String → Nat) (messages : List Message)
    (max_exchanges max_tokens : Nat) : Bool :=
  if count_exchanges messages > max_exchanges then true
  else estimate_message_tokens ct messages > max_tokens

/-- `[i for i, msg in enumerate(messages) if msg.role == "user"]`, with the
running index made explicit. -/
def user_indices_from (i : Nat) : List Message → List Nat
  | [] => []
  | msg :: rest =>
      if msg.role == "user" then i :: user_indices_from (i + 1) rest
      else user_indices_from (i + 1) rest

/-- The positions of the user-role messages. -/
def user_indices (messages : List Message) : List Nat :=
  user_indices_from 0 messages

/-- Python `lst[-k]` for a list known to satisfy `k ≤ len(lst)`:
`lst[-0]` is `lst[0]`, and `lst[-k]` is `lst[len(lst) - k]` for `k ≥ 1`. -/
def pyNegIdx (lst : List Nat) (k : Nat) : Nat :=
  if k = 0 then lst.getD 0 0 else lst.getD (lst.length - k) 0

/-- `get_recent_exchanges(messages, num_exchanges)`: the whole list when there
are at most `num_exchanges` user messages, else the suffix starting at the
position of the `num_exchanges`-th-from-last user message. -/
def get_recent_exchanges (messages : List Message) (num_exchanges : Nat) : List Message :=
  let idx := user_indices messages
  if idx.length ≤ num_exchanges then messages
  else messages.drop (pyNegIdx idx num_exchanges)

/-- `get_messages_to_summarize(messages, num_exchanges)`: empty when there are
at most `num_exchanges` user messages, else the prefix strictly before the
position of the `num_exchanges`-th-from-last user message. -/
def get_messages_to_summarize (messages : List Message) (num_exchanges : Nat) : List Message :=
  let idx := user_indices messages
  if idx.length ≤ num_exchanges then []
  else messages.take (pyNegIdx idx num_exchanges)

/-! ### conversation_summarizer.py

The OpenAI client's `create_response` is passed in as an opaque parameter
`llm : String → String`. -/

/-- The `'User' if msg.role == 'user' else 'Assistant'` label. -/
def roleLabel (msg : Message) : String :=
  if msg.role == "user" then "User" else "Assistant"

/-- `"\n\n".join(f"{label}: {content}" ...)` over the messages. -/
def conversation_text (messages : List Message) : String :=
  String.intercalate "\n\n" (messages.map fun msg => roleLabel msg ++ ": " ++ msg.content)

/-- The summarizer's system prompt (verbatim from the source). -/
def summarizerSystemPrompt : String :=
  "You are a conversation summarizer. Your job is to create a concise\nsummary of the conversation, focusing on:\n- Main topics and questions discussed\n- Key findings and research results\n- General themes and direction of the conversation\n\nKeep the summary brief (200-300 tokens). Focus on high-level topics and findings, not\nspecific validation scores or detailed assessments. This summary will be used to provide\ncontext for future exchanges."

/-- The summarizer's user prompt built around the conversation text. -/
def summarizerUserPrompt (messages : List Message) : String :=
  "Please summarize this conversation:\n\n" ++ conversation_text messages ++
  "\n\nProvide a concise summary focusing on topics discussed and key findings."

/-- `summarize_conversation(messages, llm_client)`: empty string on an empty
input, else the `.strip()`-ped LLM response to the combined prompt. -/
def summarize_conversation (llm : String → String) (messages : List Message) : String :=
  if messages.isEmpty then ""
  else String.mk (pyStrip (llm (summarizerSystemPrompt ++ "\n\n" ++
    summarizerUserPrompt messages)).data)

/-! ### context_manager.py

`manage_conversation_context` is instrumented with a count of how many
times it invokes `summarize_conversation` (0 or 1), so that
"the summarizer is never invoked" is expressible. -/

/-- `manage_conversation_context(messages, llm_client, max_exchanges, max_tokens)`
together with the number of summarizer invocations it performs. -/
def manage_conversation_context (llm : String → String) (ct : String → Nat)
    (messages : List Message) (max_exchanges max_tokens : Nat) :
    List Message × Nat :=
  if ¬ should_summarize ct messages max_exchanges max_tokens then (messages, 0)
  else
    let messages_to_summarize := get_messages_to_summarize messages max_exchanges
    let recent_messages := get_recent_exchanges messages max_exchanges
    if messages_to_summarize.isEmpty then (messages, 0)
    else
      let summary_text := summarize_conversation llm messages_to_summarize
      let summary_message : Message :=
        ⟨"system", "Previous conversation summary: " ++ summary_text⟩
      ([summary_message] ++ recent_messages, 1)

/-! ### graph/nodes.py (validator_node)

`state.metadata` is an open string-keyed dict in the source; the embedding
keeps the four keys the validator node reads and writes as optional fields
(`none` = key absent), plus a flag recording whether any other key is
present, which is what the dict's truthiness check `if state.metadata:`
depends on. -/

/-- One entry of the validation history:
`{confidence_score, assessment, is_validated}` as built at
`nodes.py:56-62` and `nodes.py:91-97`; `confidence_score` is optional since
`metadata.get("confidence_score")` may yield `None`. -/
structure ValidationEntry where
  confidence_score : Option Int
  assessment : String
  is_validated : Bool
deriving DecidableEq, Repr

/-- The validation-relevant view of a state-metadata dict. -/
structure Metadata where
  validation_history : Option (List ValidationEntry)
  confidence_score : Option Int
  assessment : Option String
  is_validated : Option Bool
  has_other_keys : Bool
deriving DecidableEq, Repr

/-- Dict truthiness `if state.metadata:` — some key is present. -/
def Metadata.nonempty (meta : Metadata) : Bool :=
  meta.validation_history.isSome || meta.confidence_score.isSome ||
  meta.assessment.isSome || meta.is_validated.isSome || meta.has_other_keys

/-- The response-side fields the validator node consumes:
`response.metadata`'s validation keys (plus whether it holds other keys)
and the audio summary appended to the transcript. -/
structure ValidatorResponse where
  meta_confidence_score : Option Int
  meta_assessment : Option String
  meta_is_validated : Option Bool
  meta_has_other_keys : Bool
  audio_summary : String
deriving DecidableEq, Repr

/-- `nodes.py:48-62`: reconstruct the validation history from state metadata —
the stored list when the `"validation_history"` key is present, else a
single entry rebuilt from the legacy scalar fields when
`"confidence_score"` is present, else empty. -/
def build_validation_history (meta : Metadata) : List ValidationEntry :=
  if meta.nonempty then
    match meta.validation_history with
    | some vh => vh
    | none =>
        match meta.confidence_score with
        | some _ =>
            [⟨meta.confidence_score, meta.assessment.getD "", meta.is_validated.getD false⟩]
        | none => []
  else []

/-- `nodes.py:85-87`: the `previous_validations` argument handed to
`validator_agent.process` — `None` when the reconstructed history is empty. -/
def critique_history_arg (meta : Metadata) : Option (List ValidationEntry) :=
  let vh := build_validation_history meta
  if vh.isEmpty then none else some vh

/-- `nodes.py:91-97`: the entry recording the turn that just completed. -/
def response_entry (resp : ValidatorResponse) : ValidationEntry :=
  ⟨resp.meta_confidence_score, resp.meta_assessment.getD "", resp.meta_is_validated.getD false⟩

/-- Python `lst[-2:]`: the last two elements (the whole list when shorter). -/
def pyLastTwo (l : List ValidationEntry) : List ValidationEntry :=
  l.drop (l.length - 2)

/-- `nodes.py:89-99`: `updated_metadata = {**state.metadata, **response.metadata}`
followed by `updated_metadata["validation_history"] = validation_history[-2:]`
after the new outcome is appended. -/
def validator_metadata_update (meta : Metadata) (resp : ValidatorResponse) : Metadata :=
  { validation_history :=
      some (pyLastTwo (build_validation_history meta ++ [response_entry resp]))
    confidence_score := resp.meta_confidence_score.orElse fun _ => meta.confidence_score
    assessment := resp.meta_assessment.orElse fun _ => meta.assessment
    is_validated := resp.meta_is_validated.orElse fun _ => meta.is_validated
    has_other_keys := meta.has_other_keys || resp.meta_has_other_keys }

/-! ### Helper lemmas -/

theorem user_indices_from_length (msgs : List Message) :
    ∀ i, (user_indices_from i msgs).length = count_exchanges msgs := by
  induction msgs with
  | nil => intro i; simp [user_indices_from, count_exchanges]
  | cons m rest ih =>
      intro i
      cases h : (m.role == "user") with
      | true =>
          have := ih (i + 1)
          simp [user_indices_from, count_exchanges, List.filter_cons, h] at this ⊢
          omega
      | false =>
          have := ih (i + 1)
          simp [user_indices_from, count_exchanges, List.filter_cons, h] at this ⊢
          omega

theorem user_indices_length (msgs : List Message) :
    (user_indices msgs).length = count_exchanges msgs :=
  user_indices_from_length msgs 0

theorem splitFirstColon_append (r : List Char) :
    ∀ l, (∀ c ∈ l, c ≠ ':') → splitFirstColon (l ++ ':' :: r) = some (l, r) := by
  intro l
  induction l with
  | nil => intro _; simp [splitFirstColon]
  | cons c cs ih =>
      intro h
      have hc : ¬ c = ':' := h c (by simp)
      simp [splitFirstColon, hc, ih fun x hx => h x (by simp [hx])]

theorem normUserChars_no_colon (u : String) : ∀ c ∈ normUserChars u, c ≠ ':' := by
  unfold normUserChars
  by_cases h : normComponentChars u = []
  · simp only [h, if_pos]
    decide
  · simp only [h, if_neg, not_false_iff]
    intro c hc hcol
    unfold normComponentChars at hc
    rcases List.mem_filter.mp hc with ⟨_, hal⟩
    rw [hcol] at hal
    exact absurd hal (by decide)

/-! ### Claim theorems -/

/-- C2: for every message list and every `k`, the history partitioner
satisfies `get_messages_to_summarize msgs k ++ get_recent_exchanges msgs k
= msgs`, and the to-summarize part is empty whenever the number of
user-role messages is at most `k`. -/
theorem partitioner_reconstructs (msgs : List Message) (k : Nat) :
    get_messages_to_summarize msgs k ++ get_recent_exchanges msgs k = msgs ∧
    (count_exchanges msgs ≤ k → get_messages_to_summarize msgs k = []) := by
  constructor
  · by_cases h : (user_indices msgs).length ≤ k
    · simp [get_messages_to_summarize, get_recent_exchanges, h]
    · simp only [get_messages_to_summarize, get_recent_exchanges, h, if_neg, not_false_iff]
      exact List.take_append_drop _ _
  · intro h
    have h' : (user_indices msgs).length ≤ k := by
      rw [user_indices_length]; exact h
    simp [get_messages_to_summarize, h']

/-- Witness for C2 at a concrete two-message, one-exchange conversation. -/
theorem partitioner_reconstructs_witness :
    get_messages_to_summarize [⟨"user", "q"⟩, ⟨"agent", "a"⟩] 1 ++
        get_recent_exchanges [⟨"user", "q"⟩, ⟨"agent", "a"⟩] 1 =
      [⟨"user", "q"⟩, ⟨"agent", "a"⟩] ∧
    get_messages_to_summarize [⟨"user", "q"⟩, ⟨"agent", "a"⟩] 1 = [] :=
  ⟨(partitioner_reconstructs [⟨"user", "q"⟩, ⟨"agent", "a"⟩] 1).1,
   (partitioner_reconstructs [⟨"user", "q"⟩, ⟨"agent", "a"⟩] 1).2 (by decide)⟩

/-- C3: the summarization trigger returns `true` exactly when the exchange
count strictly exceeds `max_exchanges` or the estimated token count
strictly exceeds `max_tokens`; it is a pure function of its arguments, so
it cannot mutate the message list. -/
theorem trigger_fires_iff (ct : String → Nat) (msgs : List Message) (me mt : Nat) :
    should_summarize ct msgs me mt = true ↔
      (me < count_exchanges msgs ∨ mt < estimate_message_tokens ct msgs) := by
  by_cases h : count_exchanges msgs > me
  · simp [should_summarize, h]
  · simp [should_summarize, h]

/-- C7 counterexample: two inputs that differ only in (interior) whitespace
produce different thread identifiers, because each space character is
turned into its own hyphen before the character filter runs. -/
theorem normalize_whitespace_counterexample :
    normalize_thread_id "a b" "t" ≠ normalize_thread_id "a  b" "t" := by decide

/-- C7 (amended): `normalize_thread_id` is deterministic (it is a pure
function of its two arguments, with no other state), and any two inputs
whose components agree after lowercasing and stripping leading/trailing
whitespace — in particular inputs that differ only in casing or in
leading/trailing whitespace — yield the same identifier.  Interior
whitespace differences are excluded, as the counterexample forces. -/
theorem normalize_case_trim_invariant (u₁ t₁ u₂ t₂ : String)
    (hu : stripLower u₁ = stripLower u₂) (ht : stripLower t₁ = stripLower t₂) :
    normalize_thread_id u₁ t₁ = normalize_thread_id u₂ t₂ := by
  unfold normalize_thread_id normUserChars normTopicChars normComponentChars
  rw [hu, ht]

/-- Witness for C7 at inputs differing in casing and edge whitespace. -/
theorem normalize_case_trim_invariant_witness :
    normalize_thread_id "Ada " "My Topic" = normalize_thread_id " ada" "my topic" :=
  normalize_case_trim_invariant "Ada " "My Topic" " ada" "my topic"
    (by decide) (by decide)

/-- C8: `normalize_thread_id "Ada Lovelace" "Quantum Computing!!"` is exactly
`"ada-lovelace:quantum-computing"`. -/
theorem normalize_ada_lovelace :
    normalize_thread_id "Ada Lovelace" "Quantum Computing!!" =
      "ada-lovelace:quantum-computing" := by decide

/-- C9: normalization is total (it is a function) and both components of the
returned identifier are non-empty: an empty normalized user component is
replaced by `"default-user"` and an empty normalized topic component by
`"general"`. -/
theorem normalize_total_defaults (u t : String) :
    (normalize_thread_id u t).data =
        (normalized_user u).data ++ ':' :: (normalized_topic t).data ∧
    normalized_user u ≠ "" ∧ normalized_topic t ≠ "" ∧
    (normComponentChars u = [] → normalized_user u = "default-user") ∧
    ((normComponentChars t).take 50 = [] → normalized_topic t = "general") := by
  refine ⟨rfl, ?_, ?_, ?_, ?_⟩
  · by_cases h : normComponentChars u = [] <;>
      simp [normalized_user, normUserChars, h, String.ext_iff]
  · by_cases h : (normComponentChars t).take 50 = [] <;>
      simp [normalized_topic, normTopicChars, h, String.ext_iff]
  · intro h; simp [normalized_user, normUserChars, h]
  · intro h; simp [normalized_topic, normTopicChars, h]

/-- Witness for C9 at components that normalize to the empty string. -/
theorem normalize_total_defaults_witness :
    normalized_user "!!" = "default-user" ∧ normalized_topic "!!" = "general" ∧
    normalized_user "!!" ≠ "" ∧ normalized_topic "!!" ≠ "" :=
  ⟨(normalize_total_defaults "!!" "!!").2.2.2.1 (by decide),
   (normalize_total_defaults "!!" "!!").2.2.2.2 (by decide),
   (normalize_total_defaults "!!" "!!").2.1,
   (normalize_total_defaults "!!" "!!").2.2.1⟩

/-- C10: parsing a normalized thread identifier always succeeds and returns
exactly the normalized user and topic components, since the user component
never contains a colon and parsing splits on the first colon. -/
theorem parse_normalize_roundtrip (u t : String) :
    parse_thread_id (normalize_thread_id u t) =
      some (normalized_user u, normalized_topic t) := by
  unfold parse_thread_id normalize_thread_id
  rw [show (String.mk (normUserChars u ++ ':' :: normTopicChars t)).data =
        normUserChars u ++ ':' :: normTopicChars t from rfl,
      splitFirstColon_append (normTopicChars t) (normUserChars u)
        (normUserChars_no_colon u)]
  rfl

/-- C1: behaviour of `manage_conversation_context` in all three cases.
When the trigger fires and the to-summarize partition is non-empty, the
result is exactly one new system-role message whose content is
`"Previous conversation summary: "` followed by the summarizer's text,
followed by the to-keep partition, with one summarizer invocation.  When
the trigger fires but the partition is empty, and when the trigger does
not fire, the input list is returned unchanged with zero summarizer
invocations. -/
theorem manage_context_compaction_cases (llm : String → String) (ct : String → Nat)
    (msgs : List Message) (me mt : Nat) :
    (should_summarize ct msgs me mt = true → get_messages_to_summarize msgs me ≠ [] →
      manage_conversation_context llm ct msgs me mt =
        (⟨"system", "Previous conversation summary: " ++
            summarize_conversation llm (get_messages_to_summarize msgs me)⟩ ::
          get_recent_exchanges msgs me, 1)) ∧
    (should_summarize ct msgs me mt = true → get_messages_to_summarize msgs me = [] →
      manage_conversation_context llm ct msgs me mt = (msgs, 0)) ∧
    (should_summarize ct msgs me mt = false →
      manage_conversation_context llm ct msgs me mt = (msgs, 0)) := by
  refine ⟨?_, ?_, ?_⟩
  · intro h1 h2
    simp [manage_conversation_context, h1, h2, List.isEmpty_iff]
  · intro h1 h2
    simp [manage_conversation_context, h1, h2]
  · intro h1
    simp [manage_conversation_context, h1]

/-- Witness for C1: a two-exchange conversation over threshold 1 compacts
the first exchange. -/
theorem manage_context_compaction_cases_witness :
    manage_conversation_context (fun _ => "S") (fun _ => 0)
        [⟨"user", "q1"⟩, ⟨"agent", "a1"⟩, ⟨"user", "q2"⟩, ⟨"agent", "a2"⟩] 1 1000 =
      (⟨"system", "Previous conversation summary: S"⟩ ::
        [⟨"user", "q2"⟩, ⟨"agent", "a2"⟩], 1) := by
  have h := (manage_context_compaction_cases (fun _ => "S") (fun _ => 0)
      [⟨"user", "q1"⟩, ⟨"agent", "a1"⟩, ⟨"user", "q2"⟩, ⟨"agent", "a2"⟩] 1 1000).1
    (by decide) (by decide)
  rw [h]
  rfl

/-- C4: a compacted output — one system-role summary message followed by a
suffix holding exactly `max_exchanges` user-role messages — is a fixed
point: running the context manager on it again with the same exchange
threshold (and any token threshold) returns it unchanged and never invokes
the summarizer. -/
theorem compaction_idempotent (llm : String → String) (ct : String → Nat)
    (summary : Message) (keep : List Message) (me mt : Nat)
    (hrole : summary.role = "system") (hkeep : count_exchanges keep = me) :
    manage_conversation_context llm ct (summary :: keep) me mt = (summary :: keep, 0) := by
  have hcount : count_exchanges (summary :: keep) = me := by
    rw [← hkeep]
    simp [count_exchanges, List.filter_cons, hrole]
  have hidx : (user_indices (summary :: keep)).length ≤ me := by
    rw [user_indices_length, hcount]
  have hsum : get_messages_to_summarize (summary :: keep) me = [] := by
    simp [get_messages_to_summarize, hidx]
  cases h : should_summarize ct (summary :: keep) me mt with
  | false => simp [manage_conversation_context, h]
  | true => simp [manage_conversation_context, h, hsum]

/-- Witness for C4: a summary message plus one retained exchange is left
unchanged at threshold 1. -/
theorem compaction_idempotent_witness :
    manage_conversation_context (fun _ => "S") (fun _ => 0)
        [⟨"system", "Previous conversation summary: S"⟩, ⟨"user", "q2"⟩, ⟨"agent", "a2"⟩]
        1 1000 =
      ([⟨"system", "Previous conversation summary: S"⟩, ⟨"user", "q2"⟩, ⟨"agent", "a2"⟩],
        0) :=
  compaction_idempotent (fun _ => "S") (fun _ => 0)
    ⟨"system", "Previous conversation summary: S"⟩ [⟨"user", "q2"⟩, ⟨"agent", "a2"⟩]
    1 1000 rfl (by decide)

/-- C5: after a validator turn, the `"validation_history"` entry of the
returned metadata is the reconstructed prior history with the just-completed
turn's outcome appended, truncated to the last two entries — hence it holds
at most 2 entries, most-recent-last, and its last entry is the outcome of
the turn that just completed. -/
theorem validation_history_window (meta : Metadata) (resp : ValidatorResponse) :
    (validator_metadata_update meta resp).validation_history =
      some (pyLastTwo (build_validation_history meta ++ [response_entry resp])) ∧
    (pyLastTwo (build_validation_history meta ++ [response_entry resp])).length ≤ 2 ∧
    (pyLastTwo (build_validation_history meta ++ [response_entry resp])).getLast? =
      some (response_entry resp) := by
  refine ⟨rfl, ?_, ?_⟩
  · simp only [pyLastTwo, List.length_drop]
    omega
  · have hk : (build_validation_history meta ++ [response_entry resp]).length - 2 ≤
        (build_validation_history meta).length := by
      simp
    unfold pyLastTwo
    rw [List.drop_append_of_le_length hk, List.getLast?_concat]

/-- C6: when metadata lacks the `"validation_history"` key but carries a
scalar `confidence_score`, the validator node reconstructs a one-entry
history (assessment defaulting to `""` and is_validated to `false` when
absent) and passes exactly that list — not `None` — as the
`previous_validations` argument of the critique call. -/
theorem legacy_history_reconstruction (meta : Metadata) (c : Int)
    (hvh : meta.validation_history = none) (hcs : meta.confidence_score = some c) :
    build_validation_history meta =
      [⟨some c, meta.assessment.getD "", meta.is_validated.getD false⟩] ∧
    critique_history_arg meta =
      some [⟨some c, meta.assessment.getD "", meta.is_validated.getD false⟩] := by
  have hne : meta.nonempty = true := by
    simp [Metadata.nonempty, hcs]
  have hb : build_validation_history meta =
      [⟨some c, meta.assessment.getD "", meta.is_validated.getD false⟩] := by
    simp [build_validation_history, hne, hvh, hcs]
  exact ⟨hb, by simp [critique_history_arg, hb]⟩

/-- Witness for C6: legacy metadata carrying only `confidence_score = 60`. -/
theorem legacy_history_reconstruction_witness :
    build_validation_history ⟨none, some 60, none, none, false⟩ =
      [⟨some 60, "", false⟩] ∧
    critique_history_arg ⟨none, some 60, none, none, false⟩ =
      some [⟨some 60, "", false⟩] := by
  simpa using legacy_history_reconstruction ⟨none, some 60, none, none, false⟩ 60 rfl rfl

end LGAA
